import Mathlib

/-!
Verification model of `markus61/braintree_sandbox`.

The repository is a FastAPI facade over the Braintree gateway and the
Telekom partner checkout API.  The code under verification lives in
`src/app.py` (MPS token handling, client-token initialization, HTML file
serving) and `src/__main__.py` (gateway sale/reserve endpoints).

Modelling conventions (shallow embedding):
* HTTP responses are `HttpResp` records: a status code plus the parsed
  JSON body abstracted as an association list of string fields (only string
  fields are ever extracted by the code, via `loads(text)[key]`).
* Network behaviour is an oracle (`World`): the identity endpoint response
  and the partner endpoint response as a function of the Authorization
  header and the payment method sent.
* Python exceptions are values of `PyErr`; each constructor corresponds to
  one raise site or exception class in the source.
* Each operation additionally returns the list of network calls it issued
  (`Event` trace), so that claims about "zero network calls" or "one fetch"
  are statements about the trace.
* The `while not response` loop of `initialize_braintree` is modelled with
  explicit fuel (`initLoop`); running out of fuel yields `none`.
-/

namespace BraintreeSandbox

/-- An HTTP response: status code and the JSON-object body abstracted as its
string-valued fields.  A body that is not a JSON object (or a field that is
not a string) is modelled by the field being absent. -/
structure HttpResp where
  status : Nat
  fields : List (String × String)
deriving Repr, DecidableEq

/-- Embeds `httpx.Response.is_success`: status in 200..299.  This is also the
truthiness of a response (`httpx.Response.__bool__`). -/
def HttpResp.is_success (r : HttpResp) : Bool :=
  200 ≤ r.status && r.status < 300

/-- Embeds `loads(text)[key]` on the abstracted body: the first binding of `key`,
if any. -/
def getStrField (fields : List (String × String)) (key : String) : Option String :=
  (fields.find? (fun p => p.1 == key)).map (fun p => p.2)

/-- Python exceptions that can cross the functions under verification.
Each constructor corresponds to one exception class or raise site:
* `httpStatusError`: `httpx.HTTPStatusError` raised by `raise_for_status`;
* `requestError`: `httpx.RequestError` (transport failure);
* `jsonError`: `json.JSONDecodeError` / `KeyError` from `loads(text)[key]`;
* `runtimeEmptyResponse`: the `RuntimeError("Received empty response ...")`
  raise site inside `post_call` (app.py line 134);
* `initFailedStatus s`: the `RuntimeError(f"Failed to initialize Braintree
  (status ...)")` raise site (app.py line 150), carrying the upstream
  status — the spec names the `s = 401` case `UpstreamAuthError` and other
  statuses `UpstreamUnavailableError`;
* `initFailedTransport`: the `RuntimeError("Failed to reach Braintree
  initializeClient endpoint")` raise site (app.py line 154) — named
  `UpstreamUnavailableError` by the spec for transport failures;
* `httpException s d`: FastAPI `HTTPException(status_code=s, detail=d)`. -/
inductive PyErr where
  | httpStatusError (status : Nat) (fields : List (String × String))
  | requestError
  | jsonError
  | runtimeEmptyResponse
  | initFailedStatus (status : Nat)
  | initFailedTransport
  | httpException (status : Nat) (detail : String)
deriving Repr, DecidableEq

/-- A network call issued by the code: the identity-endpoint POST of
`get_mps_token`, or the partner-endpoint POST of `post_call` with the
Authorization header value and payment method it carried. -/
inductive Event where
  | identityPost
  | partnerPost (auth : String) (method : String)
deriving Repr, DecidableEq

def Event.isIdentityPost : Event → Bool
  | .identityPost => true
  | _ => false

def Event.isPartnerPost : Event → Bool
  | .partnerPost _ _ => true
  | _ => false

/-- The network oracle for one execution: what the identity endpoint
returns (`.error ()` is a transport failure) and what the partner
endpoint returns for a given Authorization header and payment method. -/
structure World where
  identity : Except Unit HttpResp
  partner : String → String → Except Unit HttpResp

/-- Embeds `get_mps_token` (app.py lines 90-106).  The source POSTs to the
identity endpoint and immediately evaluates
`loads(data.text)["access_token"]`: it never inspects the HTTP status.
A transport failure surfaces as `httpx.RequestError`; a body without an
`access_token` string field surfaces as a JSON/KeyError. -/
def get_mps_token (w : World) : Except PyErr String × List Event :=
  match w.identity with
  | .error _ => (.error .requestError, [.identityPost])
  | .ok data =>
    match getStrField data.fields "access_token" with
    | some tok => (.ok tok, [.identityPost])
    | none => (.error .jsonError, [.identityPost])

/-- Embeds `httpx.Response.raise_for_status`: raises `HTTPStatusError` on any
non-2xx status. -/
def raise_for_status (r : HttpResp) : Except PyErr HttpResp :=
  if r.is_success then .ok r else .error (.httpStatusError r.status r.fields)

/-- Embeds the nested `post_call` of `initialize_braintree` (app.py lines
128-137): POST to the partner endpoint with the captured `headers_dict`
Authorization value, `raise_for_status`, then the (unreachable) empty-response
check `if not response`. -/
def post_call (w : World) (auth method : String) : Except PyErr HttpResp × List Event :=
  match w.partner auth method with
  | .error _ => (.error .requestError, [.partnerPost auth method])
  | .ok response =>
    match raise_for_status response with
    | .error e => (.error e, [.partnerPost auth method])
    | .ok response =>
      if !response.is_success then
        (.error .runtimeEmptyResponse, [.partnerPost auth method])
      else
        (.ok response, [.partnerPost auth method])

/-- Embeds the two `except` clauses of `initialize_braintree` (app.py lines
146-155), applied to an exception `e` escaping the `try` body with the
current `MPS_TOKEN` value: a 401 `HTTPStatusError` clears the token before
the re-raise; any `HTTPStatusError` becomes the status-carrying
`RuntimeError`; a `RequestError` becomes the transport `RuntimeError`;
anything else propagates unchanged. -/
def handleExc (e : PyErr) (token : String) : Except PyErr HttpResp × String :=
  match e with
  | .httpStatusError s _ =>
    (.error (.initFailedStatus s), if s = 401 then "" else token)
  | .requestError => (.error .initFailedTransport, token)
  | e => (.error e, token)

/-- One iteration of the `while not response` loop body of
`initialize_braintree` (app.py lines 140-155), with `MPS_TOKEN` passed as
explicit state.  `entryAuth` is the Authorization value captured in
`headers_dict` at function entry (line 119) — it is NOT rebuilt after a
token fetch.  Returns the outcome, the new `MPS_TOKEN`, and the trace. -/
def loopIter (w : World) (entryAuth method token : String) :
    Except PyErr HttpResp × String × List Event :=
  match (if token = "" then get_mps_token w else (.ok token, [])) with
  | (.error e, ev) =>
    let (res, token') := handleExc e token
    (res, token', ev)
  | (.ok token', ev) =>
    match post_call w entryAuth method with
    | (.ok r, ev2) => (.ok r, token', ev ++ ev2)
    | (.error e, ev2) =>
      let (res, token'') := handleExc e token'
      (res, token'', ev ++ ev2)

/-- The `while not response` loop (app.py line 140) with explicit fuel:
the loop repeats while the body neither raised nor produced a truthy
response.  `none` means the fuel ran out. -/
def initLoop (w : World) (entryAuth method : String) :
    Nat → String → Option (Except PyErr HttpResp × String × List Event)
  | 0, _ => none
  | fuel + 1, token =>
    match loopIter w entryAuth method token with
    | (.error e, token', ev) => some (.error e, token', ev)
    | (.ok r, token', ev) =>
      if r.is_success then some (.ok r, token', ev)
      else
        match initLoop w entryAuth method fuel token' with
        | none => none
        | some (res, token'', ev2) => some (res, token'', ev ++ ev2)

/-- Embeds `initialize_braintree` (app.py lines 112-157).  `token` is the
module global `MPS_TOKEN` at entry.  The Authorization header value
`"bearer " ++ token` is computed once, at entry, into `headers_dict`;
the loop then runs, and on success `loads(response.text)["clientToken"]`
is returned.  The result carries the final `MPS_TOKEN` and the trace of
network calls. -/
def init_braintree (w : World) (method token : String) (fuel : Nat) :
    Option (Except PyErr String × String × List Event) :=
  let entryAuth := "bearer " ++ token
  match initLoop w entryAuth method fuel token with
  | none => none
  | some (.error e, token', ev) => some (.error e, token', ev)
  | some (.ok r, token', ev) =>
    match getStrField r.fields "clientToken" with
    | some ct => some (.ok ct, token', ev)
    | none => some (.error .jsonError, token', ev)

/-- The payment methods accepted by the `/client-token/{payment_method}`
endpoint (app.py line 242). -/
def allowedMethods : List String := ["creditcard", "applepay", "googlepay", "paypal"]

/-- Embeds the endpoint `create_client_token` (app.py lines 239-249):
reject unsupported payment methods with `HTTPException(400)` before any
network call, otherwise delegate to `initialize_braintree`. -/
def create_client_token (w : World) (payment_method token : String) (fuel : Nat) :
    Option (Except PyErr String × String × List Event) :=
  if payment_method ∈ allowedMethods then
    init_braintree w payment_method token fuel
  else
    some (.error (.httpException 400 "Unsupported payment method type"), token, [])

/-! ### Gateway endpoints of `src/__main__.py` (sale / reserve) -/

namespace Main

/-- Request body of `/braintree/transactions/sale` (`SaleRequest`). -/
structure SaleRequest where
  amount : String
  payment_method_token : Option String
  payment_method_nonce : Option String
  submit_for_settlement : Bool
  order_id : Option String
deriving Repr, DecidableEq

/-- Request body of `/braintree/transactions/reserve`
(`TransactionReserveRequest`). -/
structure TransactionReserveRequest where
  amount : String
  payment_method_token : Option String
  payment_method_nonce : Option String
  order_id : Option String
deriving Repr, DecidableEq

/-- The attributes of a `braintree.Transaction` that
`_serialize_transaction` reads (`getattr` with default `None`; datetimes
are represented by their ISO strings; `customer_details and
customer_details.id` is collapsed into one optional field). -/
structure Transaction where
  id : Option String
  status : Option String
  amount : Option String
  currency_iso_code : Option String
  order_id : Option String
  payment_instrument_type : Option String
  customer_id : Option String
  authorization_expires_at : Option String
  created_at : Option String
  updated_at : Option String
deriving Repr, DecidableEq

/-- The JSON object built by `_serialize_transaction`
(__main__.py lines 119-137). -/
structure TxSummary where
  id : Option String
  status : Option String
  amount : Option String
  currencyIsoCode : Option String
  orderId : Option String
  paymentInstrumentType : Option String
  customerId : Option String
  authorizationExpiresAt : Option String
  createdAt : Option String
  updatedAt : Option String
deriving Repr, DecidableEq

/-- Embeds `_serialize_transaction` (__main__.py lines 119-137). -/
def _serialize_transaction (tx : Transaction) : TxSummary :=
  ⟨tx.id, tx.status, tx.amount, tx.currency_iso_code, tx.order_id,
    tx.payment_instrument_type, tx.customer_id, tx.authorization_expires_at,
    tx.created_at, tx.updated_at⟩

/-- The payload dict passed to `gw.transaction.sale` by the `sale` and
`reserve` endpoints: keys absent from the dict are `none`. -/
structure SalePayload where
  amount : String
  submit_for_settlement : Bool
  order_id : Option String
  payment_method_token : Option String
  payment_method_nonce : Option String
deriving Repr, DecidableEq

/-- Result of `gw.transaction.sale`. -/
structure GatewayResult where
  is_success : Bool
  message : String
  transaction : Transaction
deriving Repr, DecidableEq

/-- Python truthiness of an `Optional[str]`: `None` and `""` are falsy. -/
def strTruthy : Option String → Bool
  | some s => s ≠ ""
  | none => false

/-- Embeds `_ensure_single_payment_method` (__main__.py lines 111-116):
raise `HTTPException(400)` when both or neither of token/nonce are `None`. -/
def _ensure_single_payment_method (token nonce : Option String) : Except PyErr Unit :=
  if token.isNone == nonce.isNone then
    .error (.httpException 400
      "Provide exactly one of payment_method_token or payment_method_nonce")
  else
    .ok ()

/-- The payload dict built by the `sale` endpoint (__main__.py lines
190-199): `order_id` only when truthy, `payment_method_token` when truthy,
otherwise `payment_method_nonce` (the `if body.payment_method_token:`
branch uses Python truthiness, not the `is None` test of the guard). -/
def salePayload (body : SaleRequest) : SalePayload :=
  { amount := body.amount
    submit_for_settlement := body.submit_for_settlement
    order_id := if strTruthy body.order_id then body.order_id else none
    payment_method_token :=
      if strTruthy body.payment_method_token then body.payment_method_token else none
    payment_method_nonce :=
      if strTruthy body.payment_method_token then none else body.payment_method_nonce }

/-- The payload dict built by the `reserve` endpoint (__main__.py lines
215-224): as `salePayload` but with `submit_for_settlement` forced off. -/
def reservePayload (body : TransactionReserveRequest) : SalePayload :=
  { amount := body.amount
    submit_for_settlement := false
    order_id := if strTruthy body.order_id then body.order_id else none
    payment_method_token :=
      if strTruthy body.payment_method_token then body.payment_method_token else none
    payment_method_nonce :=
      if strTruthy body.payment_method_token then none else body.payment_method_nonce }

/-- Embeds the `sale` endpoint (__main__.py lines 183-205).  `gw` is the
gateway oracle for `gw.transaction.sale`; the second component is the
trace of gateway calls issued. -/
def sale (gw : SalePayload → GatewayResult) (body : SaleRequest) :
    Except PyErr TxSummary × List SalePayload :=
  match _ensure_single_payment_method body.payment_method_token body.payment_method_nonce with
  | .error e => (.error e, [])
  | .ok _ =>
    let result := gw (salePayload body)
    if !result.is_success then
      (.error (.httpException 402 result.message), [salePayload body])
    else
      (.ok (_serialize_transaction result.transaction), [salePayload body])

/-- Embeds the `reserve` endpoint (__main__.py lines 208-230); identical to
`sale` except the payload and a gateway failure mapping to status 400. -/
def reserve (gw : SalePayload → GatewayResult) (body : TransactionReserveRequest) :
    Except PyErr TxSummary × List SalePayload :=
  match _ensure_single_payment_method body.payment_method_token body.payment_method_nonce with
  | .error e => (.error e, [])
  | .ok _ =>
    let result := gw (reservePayload body)
    if !result.is_success then
      (.error (.httpException 400 result.message), [reservePayload body])
    else
      (.ok (_serialize_transaction result.transaction), [reservePayload body])

end Main

/-! ### Static HTML serving (`get_html_file`, app.py lines 225-236)

`pathlib` paths are modelled as lists of segments from the filesystem
root.  `Path.resolve()` is modelled as lexical normalization of `.` and
`..` (symbolic links are outside the model). -/

/-- Lexical path normalization: append the given raw segments to an
already-normalized absolute path `acc`, interpreting `""` and `"."` as
no-ops and `".."` as dropping the last segment (a no-op at the root,
as in POSIX `resolve`). -/
def resolveSegs : List String → List String → List String
  | acc, [] => acc
  | acc, seg :: rest =>
    if seg = "" || seg = "." then resolveSegs acc rest
    else if seg = ".." then resolveSegs acc.dropLast rest
    else resolveSegs (acc ++ [seg]) rest

/-- Embeds `PurePath.parents` of an absolute path given as segments: every proper
prefix, from the root up (the path itself is not among its parents). -/
def pathParents (segs : List String) : List (List String) :=
  (List.range segs.length).map (fun n => segs.take n)

/-- Split a raw path string at `'/'` characters: the segments `pathlib`
joins onto the base path (`str.split("/")` semantics: `""` gives `[""]`,
a leading slash gives a leading empty segment). -/
def splitOnSlashAux : List Char → List Char → List String
  | [], acc => [String.mk acc.reverse]
  | c :: rest, acc =>
    if c = '/' then String.mk acc.reverse :: splitOnSlashAux rest []
    else splitOnSlashAux rest (c :: acc)

def splitOnSlash (s : String) : List String :=
  splitOnSlashAux s.data []

/-- Whether the path string is absolute (starts with `'/'`), in which case
`PurePath.__truediv__` discards the base path. -/
def isAbsolutePath (s : String) : Bool :=
  match s.data with
  | '/' :: _ => true
  | _ => false

/-- Embeds `PurePath.suffix` of a final path component: the substring from the
last dot on, provided that dot is neither the first nor the last character
of the name; otherwise the empty string.  `ext` is the run of characters
after the last dot. -/
def pySuffix (name : String) : String :=
  let chars := name.data
  let ext := (chars.reverse.takeWhile (fun c => c ≠ '.')).reverse
  if ext.length = chars.length then ""
  else if ext.length = 0 then ""
  else if ext.length + 1 = chars.length then ""
  else String.mk ('.' :: ext)

/-- Outcome of the `get_html_file` endpoint: an `HTMLResponse` with the
file contents, or an `HTTPException` status/detail. -/
inductive HtmlResult where
  | ok (content : String)
  | httpError (status : Nat) (detail : String)
deriving Repr, DecidableEq

/-- Embeds `get_html_file` (app.py lines 225-236).  `cwd` is the process
working directory as raw segments (so `html_root = Path("html").resolve()`
is `resolveSegs [] cwd ++ ["html"]` via normalization); `fs` maps a
resolved absolute path to the contents of the file there, `none` when
opening it raises `FileNotFoundError`.  The second component is the trace
of paths passed to `read_text`. -/
def get_html_file (cwd : List String) (fs : List String → Option String)
    (filename : String) : HtmlResult × List (List String) :=
  let html_root := resolveSegs [] (cwd ++ ["html"])
  let segs := splitOnSlash filename
  let candidate :=
    if isAbsolutePath filename then resolveSegs [] segs
    else resolveSegs html_root segs
  if !((pathParents candidate).contains html_root)
      || pySuffix (candidate.getLastD "") ≠ ".html" then
    (.httpError 400 "Invalid path segment", [])
  else
    match fs candidate with
    | none => (.httpError 404 "File not found", [candidate])
    | some content => (.ok content, [candidate])

/-! ### Interleaving model of concurrent `initialize_braintree` calls

`MPS_TOKEN` is a bare module-level global (app.py line 109) and FastAPI
runs the `def` endpoints on a threadpool, so two requests can interleave
around lines 143-144 (`if not MPS_TOKEN: MPS_TOKEN = get_mps_token()`).
The GIL makes each of the three actions below atomic, but the network
fetch releases the GIL, so any interleaving of the action sequences is
possible.  Each thread runs: read-and-test the global, perform the fetch,
write the result back. -/

namespace Concurrent

/-- Program counter of one thread through lines 143-144 of app.py.
`atCheck`: about to evaluate `if not MPS_TOKEN`; `atFetch`: inside
`get_mps_token()`; `atWrite`: about to assign the fetched value to
`MPS_TOKEN`; `done`: past line 144. -/
inductive Pc where
  | atCheck
  | atFetch
  | atWrite
  | done
deriving Repr, DecidableEq

/-- One thread: its program counter and the token value its own
`get_mps_token()` call returned (meaningful once past `atFetch`). -/
structure ThreadSt where
  pc : Pc
  fetched : String
deriving Repr, DecidableEq

/-- The shared process state: the `MPS_TOKEN` global, both threads, and a
count of `get_mps_token` network calls issued so far. -/
structure Sys where
  mps_token : String
  t1 : ThreadSt
  t2 : ThreadSt
  fetchCount : Nat
deriving Repr, DecidableEq

/-- One atomic step of a thread (identified by `tok`, the value its fetch
returns): test the global at `atCheck` (skipping the fetch when the global
is non-empty), issue the fetch at `atFetch`, write the global at
`atWrite`. -/
def threadStep (tok : String) (g : String) (t : ThreadSt) (n : Nat) :
    String × ThreadSt × Nat :=
  match t.pc with
  | .atCheck => (g, ⟨if g = "" then .atFetch else .done, t.fetched⟩, n)
  | .atFetch => (g, ⟨.atWrite, tok⟩, n + 1)
  | .atWrite => (t.fetched, ⟨.done, t.fetched⟩, n)
  | .done => (g, t, n)

/-- Run a schedule: `false` steps thread 1 (whose fetch returns `tokA`),
`true` steps thread 2 (whose fetch returns `tokB`). -/
def run (tokA tokB : String) : List Bool → Sys → Sys
  | [], s => s
  | c :: rest, s =>
    if c then
      let (g, t2, n) := threadStep tokB s.mps_token s.t2 s.fetchCount
      run tokA tokB rest ⟨g, s.t1, t2, n⟩
    else
      let (g, t1, n) := threadStep tokA s.mps_token s.t1 s.fetchCount
      run tokA tokB rest ⟨g, t1, s.t2, n⟩

/-- Both threads at the check, empty cache, no fetch issued yet. -/
def initSys : Sys := ⟨"", ⟨.atCheck, ""⟩, ⟨.atCheck, ""⟩, 0⟩

/-- The interleaving where both threads pass the emptiness check before
either fetches: check 1, check 2, fetch 1, write 1, fetch 2, write 2. -/
def bothFetchSchedule : List Bool := [false, true, false, false, true, true]

end Concurrent

/-! ### Helper lemmas -/

/-- The function `get_mps_token` always issues exactly the identity POST. -/
theorem get_mps_token_snd (w : World) : (get_mps_token w).2 = [Event.identityPost] := by
  unfold get_mps_token
  cases w.identity with
  | error u => rfl
  | ok data =>
    cases h : getStrField data.fields "access_token" <;> simp [h]

/-- Closed form of `post_call`: the partner POST is always issued once, a
transport failure gives `requestError`, a non-2xx gives `httpStatusError`,
and a 2xx response is returned (the empty-response branch is unreachable
because a 2xx response is truthy). -/
theorem post_call_eq (w : World) (a m : String) :
    post_call w a m =
      ((match w.partner a m with
        | .error _ => .error .requestError
        | .ok resp =>
          if resp.is_success then .ok resp
          else .error (.httpStatusError resp.status resp.fields)),
       [Event.partnerPost a m]) := by
  unfold post_call raise_for_status
  cases w.partner a m with
  | error u => rfl
  | ok resp => by_cases hs : resp.is_success <;> simp [hs]

/-- A response returned by `post_call` is 2xx. -/
theorem post_call_ok_is_success {w : World} {a m : String} {r : HttpResp}
    {ev : List Event} (h : post_call w a m = (.ok r, ev)) : r.is_success = true := by
  rw [post_call_eq] at h
  cases hw : w.partner a m with
  | error u => rw [hw] at h; simp at h
  | ok resp =>
    rw [hw] at h
    by_cases hs : resp.is_success
    · simp only [hs, if_true] at h
      have h1 := congrArg Prod.fst h
      simp at h1
      exact h1 ▸ hs
    · simp [hs] at h

/-- The handler `handleExc` never swallows an exception: it always re-raises. -/
theorem handleExc_isError (e : PyErr) (t : String) :
    ∃ e', (handleExc e t).1 = Except.error e' := by
  cases e <;> exact ⟨_, rfl⟩

/-- The response of a successful loop iteration is 2xx (it came from
`post_call`). -/
theorem loopIter_ok_is_success {w : World} {a m t t' : String} {r : HttpResp}
    {ev : List Event} (h : loopIter w a m t = (.ok r, t', ev)) :
    r.is_success = true := by
  unfold loopIter at h
  rcases hf : (if t = "" then get_mps_token w else (Except.ok t, ([] : List Event)))
    with ⟨res, ev1⟩
  rw [hf] at h
  cases res with
  | error e =>
    rcases hh : handleExc e t with ⟨res2, tok2⟩
    rcases handleExc_isError e t with ⟨e', he⟩
    rw [hh] at he
    simp only at he
    subst he
    simp [hh] at h
  | ok tok =>
    rcases hp : post_call w a m with ⟨res2, ev2⟩
    rw [hp] at h
    cases res2 with
    | ok r2 =>
      simp only at h
      have h1 := congrArg (fun p => p.1) h
      simp at h1
      exact h1 ▸ post_call_ok_is_success hp
    | error e =>
      rcases hh : handleExc e tok with ⟨res3, tok3⟩
      rcases handleExc_isError e tok with ⟨e', he⟩
      rw [hh] at he
      simp only at he
      subst he
      simp [hh] at h

/-- With positive fuel the `while not response` loop runs its body exactly
once: every exception re-raises and a surviving response is truthy. -/
theorem initLoop_succ (w : World) (a m : String) (fuel : Nat) (t : String) :
    initLoop w a m (fuel + 1) t = some (loopIter w a m t) := by
  unfold initLoop
  rcases hl : loopIter w a m t with ⟨res, t', ev⟩
  cases res with
  | error e => simp
  | ok r => simp [loopIter_ok_is_success hl]

theorem initLoop_one (w : World) (a m t : String) :
    initLoop w a m 1 t = some (loopIter w a m t) :=
  initLoop_succ w a m 0 t

/-- Closed form of `initialize_braintree` for positive fuel: exactly one
loop iteration, then `loads(response.text)["clientToken"]`. -/
theorem init_braintree_succ_eq (w : World) (m t : String) (fuel : Nat) :
    init_braintree w m t (fuel + 1) =
      (match loopIter w ("bearer " ++ t) m t with
       | (.error e, token', ev) => some (.error e, token', ev)
       | (.ok r, token', ev) =>
         match getStrField r.fields "clientToken" with
         | some ct => some (.ok ct, token', ev)
         | none => some (.error .jsonError, token', ev)) := by
  unfold init_braintree
  simp only [initLoop_succ]
  rcases loopIter w ("bearer " ++ t) m t with ⟨res, t', ev⟩
  cases res <;> rfl

/-- The trace of one loop iteration: at most one identity fetch and at
most one partner POST. -/
theorem loopIter_trace_bound (w : World) (a m t : String) :
    ((loopIter w a m t).2.2.filter Event.isIdentityPost).length ≤ 1 ∧
    ((loopIter w a m t).2.2.filter Event.isPartnerPost).length ≤ 1 := by
  unfold loopIter
  rcases hf : (if t = "" then get_mps_token w else (Except.ok t, ([] : List Event)))
    with ⟨res, ev1⟩
  have hev1 : ev1 = [] ∨ ev1 = [Event.identityPost] := by
    by_cases ht : t = ""
    · right
      have hs := get_mps_token_snd w
      rw [ht, if_pos rfl] at hf
      rw [hf] at hs
      exact hs
    · left
      rw [if_neg ht] at hf
      have h2 := congrArg Prod.snd hf
      simpa using h2.symm
  cases res with
  | error e =>
    rcases hh : handleExc e t with ⟨res2, tok2⟩
    rcases hev1 with h1 | h1 <;> subst h1 <;>
      simp [hh, Event.isIdentityPost, Event.isPartnerPost]
  | ok tok =>
    rcases hp : post_call w a m with ⟨res2, ev2⟩
    have hev2 : ev2 = [Event.partnerPost a m] := by
      have h2 := post_call_eq w a m
      rw [hp] at h2
      exact congrArg Prod.snd h2
    subst hev2
    cases res2 with
    | ok r2 =>
      rcases hev1 with h1 | h1 <;> subst h1 <;>
        simp [hp, Event.isIdentityPost, Event.isPartnerPost]
    | error e =>
      rcases hh : handleExc e tok with ⟨res3, tok3⟩
      rcases hev1 with h1 | h1 <;> subst h1 <;>
        simp [hp, hh, Event.isIdentityPost, Event.isPartnerPost]

/-- A call entered with an empty `MPS_TOKEN` issues the identity fetch
first: the loop-iteration trace begins with the identity POST. -/
theorem loopIter_empty_head (w : World) (a m : String) :
    (loopIter w a m "").2.2.head? = some Event.identityPost := by
  unfold loopIter
  rcases hg : get_mps_token w with ⟨res, ev1⟩
  have hev1 : ev1 = [Event.identityPost] := by
    have hs := get_mps_token_snd w
    rw [hg] at hs
    exact hs
  subst hev1
  simp only [if_pos rfl, hg]
  cases res with
  | error e =>
    rcases hh : handleExc e "" with ⟨res2, tok2⟩
    simp [hh]
  | ok tok =>
    rcases hp : post_call w a m with ⟨res2, ev2⟩
    cases res2 with
    | ok r2 => simp [hp]
    | error e =>
      rcases hh : handleExc e tok with ⟨res3, tok3⟩
      simp [hp, hh]

/-- Membership in `pathParents`: exactly the proper prefixes. -/
theorem pathParents_mem_iff (p q : List String) :
    q ∈ pathParents p ↔ q.length < p.length ∧ p.take q.length = q := by
  unfold pathParents
  simp only [List.mem_map, List.mem_range]
  constructor
  · rintro ⟨n, hn, rfl⟩
    have hl : (p.take n).length = n := by
      rw [List.length_take]
      exact Nat.min_eq_left (Nat.le_of_lt hn)
    exact ⟨by rw [hl]; exact hn, by rw [hl]⟩
  · rintro ⟨hlt, heq⟩
    exact ⟨q.length, hlt, heq⟩

theorem pathParents_contains_iff (p q : List String) :
    (pathParents p).contains q = true ↔ q.length < p.length ∧ p.take q.length = q := by
  rw [List.elem_iff]
  exact pathParents_mem_iff p q

namespace Concurrent

/-- Counts 1 while the thread may still reach its fetch and 0 afterwards. -/
def pcPending : Pc → Nat
  | .atCheck => 1
  | .atFetch => 1
  | .atWrite => 0
  | .done => 0

/-- One step never increases fetches-so-far plus fetches-still-possible. -/
theorem threadStep_bound (tok g : String) (t : ThreadSt) (n : Nat) :
    (threadStep tok g t n).2.2 + pcPending (threadStep tok g t n).2.1.pc ≤
      n + pcPending t.pc := by
  rcases t with ⟨pc, fetched⟩
  cases pc <;> simp [threadStep, pcPending]
  split <;> simp [pcPending]

/-- The system-wide fetch budget: fetches issued plus fetches still
possible. -/
def budget (s : Sys) : Nat :=
  s.fetchCount + pcPending s.t1.pc + pcPending s.t2.pc

/-- Running any schedule never increases the fetch budget. -/
theorem run_budget_le (tokA tokB : String) (sched : List Bool) :
    ∀ s : Sys, budget (run tokA tokB sched s) ≤ budget s := by
  induction sched with
  | nil => intro s; simp [run]
  | cons c rest ih =>
    intro s
    unfold run
    cases c with
    | true =>
      simp only [if_true]
      rcases hstep : threadStep tokB s.mps_token s.t2 s.fetchCount with ⟨g, t2, n⟩
      have hb := threadStep_bound tokB s.mps_token s.t2 s.fetchCount
      rw [hstep] at hb
      simp only at hb
      refine le_trans (ih ⟨g, s.t1, t2, n⟩) ?hba
      simp only [budget]
      omega
    | false =>
      simp only [Bool.false_eq_true, if_false]
      rcases hstep : threadStep tokA s.mps_token s.t1 s.fetchCount with ⟨g, t1, n⟩
      have hb := threadStep_bound tokA s.mps_token s.t1 s.fetchCount
      rw [hstep] at hb
      simp only at hb
      refine le_trans (ih ⟨g, t1, s.t2, n⟩) ?hbb
      simp only [budget]
      omega

end Concurrent

/-- The trace of an `initialize_braintree` run is the trace of its single
loop iteration (the clientToken extraction issues no further calls). -/
theorem init_braintree_trace (w : World) (m t : String) (fuel : Nat)
    (r : Except PyErr String × String × List Event)
    (h : init_braintree w m t (fuel + 1) = some r) :
    r.2.2 = (loopIter w ("bearer " ++ t) m t).2.2 := by
  rw [init_braintree_succ_eq] at h
  rcases hl : loopIter w ("bearer " ++ t) m t with ⟨res, t', ev⟩
  rw [hl] at h
  cases res with
  | error e =>
    simp at h
    subst h
    rfl
  | ok rr =>
    cases hc : getStrField rr.fields "clientToken" with
    | none =>
      simp [hc] at h
      subst h
      rfl
    | some ct =>
      simp [hc] at h
      subst h
      rfl

/-! ### Claim theorems -/

/-- Failing input for the Authorization-header bug: empty cache at entry,
identity endpoint answers 200 with access_token `"tok123"`, partner
endpoint answers 200 with clientToken `"ct"` for any Authorization. -/
def headerBugWorld : World :=
  ⟨.ok ⟨200, [("access_token", "tok123")]⟩,
   fun _ _ => .ok ⟨200, [("clientToken", "ct")]⟩⟩

/-- C1: evaluating `initialize_braintree` at the failing input.  Starting
from an empty `MPS_TOKEN` the identity fetch happens first and the cache
is populated with `"tok123"`, but the partner POST carries Authorization
`"bearer "` — the header captured into `headers_dict` at function entry,
before the fetch — not the newly cached token `"bearer tok123"`.  The
claim (and spec §4.3 step 2) requires the POST to carry the cached token;
the code sends the stale entry-time header. -/
theorem c1_post_carries_entry_header_not_fetched_token :
    init_braintree headerBugWorld "googlepay" "" 2 =
      some (.ok "ct", "tok123",
        [.identityPost, .partnerPost "bearer " "googlepay"]) ∧
    "bearer " ≠ "bearer " ++ "tok123" :=
  ⟨rfl, by decide⟩

/-- C2: a 401 from the partner endpoint clears `MPS_TOKEN` (Valid to
Empty) and the call fails with the status-401 `RuntimeError` (named
`UpstreamAuthError` by the spec); and every call entered with an empty cache performs
the identity fetch as its first network call, before any partner POST. -/
theorem c2_partner_401_clears_cache_and_fails
    (t method : String) (w : World) (fuel : Nat) (resp : HttpResp)
    (ht : t ≠ "") (hp : w.partner ("bearer " ++ t) method = .ok resp)
    (hs : resp.status = 401) :
    init_braintree w method t (fuel + 1) =
      some (.error (.initFailedStatus 401), "",
        [.partnerPost ("bearer " ++ t) method]) ∧
    ∀ (w2 : World) (m2 : String) (f2 : Nat)
      (r : Except PyErr String × String × List Event),
      init_braintree w2 m2 "" (f2 + 1) = some r →
      r.2.2.head? = some Event.identityPost := by
  constructor
  · rw [init_braintree_succ_eq]
    unfold loopIter
    rw [if_neg ht, post_call_eq, hp]
    simp [HttpResp.is_success, hs, handleExc]
  · intro w2 m2 f2 r h
    rw [init_braintree_trace w2 m2 "" f2 r h]
    exact loopIter_empty_head w2 ("bearer " ++ "") m2

/-- Partner stub answering 401 regardless of the request. -/
def partner401World : World :=
  ⟨.ok ⟨200, [("access_token", "fresh")]⟩, fun _ _ => .ok ⟨401, []⟩⟩

theorem c2_witness :
    init_braintree partner401World "paypal" "valid" 1 =
      some (.error (.initFailedStatus 401), "",
        [.partnerPost ("bearer " ++ "valid") "paypal"]) ∧
    init_braintree partner401World "paypal" "" 1 =
      some (.error (.initFailedStatus 401), "",
        [.identityPost, .partnerPost ("bearer " ++ "") "paypal"]) := by
  have h := c2_partner_401_clears_cache_and_fails "valid" "paypal" partner401World 0
    ⟨401, []⟩ (by decide) rfl rfl
  refine ⟨h.1, ?_⟩
  have h2 := h.2 partner401World "paypal" 0
  rfl

/-- C3: a non-401 non-2xx partner response, or a transport failure at the
partner endpoint, fails with the corresponding `RuntimeError` (named
`UpstreamUnavailableError` by the spec) and leaves the cached token unchanged. -/
theorem c3_non401_failure_keeps_cache
    (t method : String) (w : World) (fuel : Nat)
    (ht : t ≠ "")
    (hresp : w.partner ("bearer " ++ t) method = .error ()
      ∨ ∃ resp, w.partner ("bearer " ++ t) method = .ok resp
          ∧ resp.is_success = false ∧ resp.status ≠ 401) :
    ∃ e, init_braintree w method t (fuel + 1) =
        some (.error e, t, [.partnerPost ("bearer " ++ t) method])
      ∧ (e = .initFailedTransport ∨
          ∃ s, s ≠ 401 ∧ e = .initFailedStatus s) := by
  rcases hresp with hte | ⟨resp, hp, hns, hn401⟩
  · refine ⟨.initFailedTransport, ?_, Or.inl rfl⟩
    rw [init_braintree_succ_eq]
    unfold loopIter
    rw [if_neg ht, post_call_eq, hte]
    simp [handleExc]
  · refine ⟨.initFailedStatus resp.status, ?_,
      Or.inr ⟨resp.status, hn401, rfl⟩⟩
    rw [init_braintree_succ_eq]
    unfold loopIter
    rw [if_neg ht, post_call_eq, hp]
    simp [hns, handleExc, hn401]

/-- Partner stub answering 500. -/
def partner500World : World :=
  ⟨.error (), fun _ _ => .ok ⟨500, []⟩⟩

theorem c3_witness :
    ∃ e, init_braintree partner500World "paypal" "valid" 1 =
        some (.error e, "valid", [.partnerPost ("bearer " ++ "valid") "paypal"])
      ∧ (e = .initFailedTransport ∨
          ∃ s, s ≠ 401 ∧ e = .initFailedStatus s) :=
  c3_non401_failure_keeps_cache "valid" "paypal" partner500World 0 (by decide)
    (Or.inr ⟨⟨500, []⟩, rfl, by decide, by decide⟩)

/-- C4: with a non-empty cached token and a 200 partner response whose
body has a `clientToken` field, the call returns exactly that value, the
cache is unchanged, and the trace holds no identity fetch: TokenProvider
is not invoked. -/
theorem c4_success_returns_partner_token_without_fetch
    (t v method : String) (fields : List (String × String)) (w : World) (fuel : Nat)
    (ht : t ≠ "")
    (hp : w.partner ("bearer " ++ t) method = .ok ⟨200, fields⟩)
    (hv : getStrField fields "clientToken" = some v) :
    init_braintree w method t (fuel + 1) =
      some (.ok v, t, [.partnerPost ("bearer " ++ t) method]) := by
  rw [init_braintree_succ_eq]
  unfold loopIter
  rw [if_neg ht, post_call_eq, hp]
  simp [HttpResp.is_success, hv]

/-- Partner stub answering 200 with clientToken "abc". -/
def partnerOkWorld : World :=
  ⟨.error (), fun _ _ => .ok ⟨200, [("clientToken", "abc")]⟩⟩

theorem c4_witness :
    init_braintree partnerOkWorld "googlepay" "tok" 1 =
      some (.ok "abc", "tok", [.partnerPost ("bearer " ++ "tok") "googlepay"]) :=
  c4_success_returns_partner_token_without_fetch "tok" "abc" "googlepay"
    [("clientToken", "abc")] partnerOkWorld 0 (by decide) rfl rfl

/-- C5: a payment method outside {creditcard, applepay, googlepay, paypal}
is rejected by the endpoint with `HTTPException(400)`, the cache is
untouched, and the trace is empty: zero network calls. -/
theorem c5_invalid_method_rejected_no_network
    (m t : String) (w : World) (fuel : Nat) (hm : m ∉ allowedMethods) :
    create_client_token w m t fuel =
      some (.error (.httpException 400 "Unsupported payment method type"), t, []) := by
  unfold create_client_token
  rw [if_neg hm]

theorem c5_witness :
    create_client_token partnerOkWorld "bitcoin" "tok" 7 =
      some (.error (.httpException 400 "Unsupported payment method type"),
        "tok", []) :=
  c5_invalid_method_rejected_no_network "bitcoin" "tok" partnerOkWorld 7 (by decide)

/-- Identity endpoint stub answering 500 with a JSON body that still
contains an access_token. -/
def identityErr500World : World :=
  ⟨.ok ⟨500, [("access_token", "tok")]⟩, fun _ _ => .error ()⟩

/-- C6 counterexample: the identity endpoint answers with status 500, yet
`get_mps_token` succeeds and returns the token — it does not fail with an
`UpstreamAuthError` carrying the status and body, because the source never
calls `raise_for_status` on the identity response. -/
theorem c6_counterexample_500_yields_token :
    get_mps_token identityErr500World = (.ok "tok", [.identityPost]) := rfl

/-- C6 amended: `get_mps_token` never inspects the HTTP status.  For any
status whatever, a body with an `access_token` string field yields that
token; a body without it fails with a JSON/KeyError; and a transport
failure propagates as `httpx.RequestError`, which `initialize_braintree`
converts to the transport `RuntimeError` (named
`UpstreamUnavailableError` by the spec, not `UpstreamAuthError`). -/
theorem c6_amended_no_status_check
    (w : World) (method : String) (fuel : Nat)
    (status : Nat) (fields : List (String × String)) (tok : String) :
    (w.identity = .ok ⟨status, fields⟩ →
      getStrField fields "access_token" = some tok →
      get_mps_token w = (.ok tok, [.identityPost]))
    ∧ (w.identity = .ok ⟨status, fields⟩ →
      getStrField fields "access_token" = none →
      get_mps_token w = (.error .jsonError, [.identityPost]))
    ∧ (w.identity = .error () →
      init_braintree w method "" (fuel + 1) =
        some (.error .initFailedTransport, "", [.identityPost])) := by
  refine ⟨?_, ?_, ?_⟩
  · intro hid hf
    unfold get_mps_token
    rw [hid]
    simp [hf]
  · intro hid hf
    unfold get_mps_token
    rw [hid]
    simp [hf]
  · intro hid
    rw [init_braintree_succ_eq]
    unfold loopIter
    rw [if_pos rfl]
    unfold get_mps_token
    rw [hid]
    simp [handleExc]

/-- World whose identity endpoint transport-fails. -/
def identityDownWorld : World :=
  ⟨.error (), fun _ _ => .ok ⟨200, []⟩⟩

theorem c6_amended_witness :
    get_mps_token identityErr500World = (.ok "tok", [.identityPost]) ∧
    init_braintree identityDownWorld "paypal" "" 1 =
      some (.error .initFailedTransport, "", [.identityPost]) :=
  ⟨(c6_amended_no_status_check identityErr500World "paypal" 0 500
      [("access_token", "tok")] "tok").1 rfl rfl,
   (c6_amended_no_status_check identityDownWorld "paypal" 0 0 [] "x").2.2 rfl⟩

/-- C7: every invocation of `initialize_braintree` with positive fuel
terminates with the same result one unit of fuel gives — the loop body
runs at most once — and the network trace holds at most one identity fetch
and at most one partner POST. -/
theorem c7_terminates_single_iteration
    (w : World) (method token : String) (fuel : Nat) :
    ∃ res, init_braintree w method token (fuel + 1) = some res
      ∧ init_braintree w method token 1 = some res
      ∧ (res.2.2.filter Event.isIdentityPost).length ≤ 1
      ∧ (res.2.2.filter Event.isPartnerPost).length ≤ 1 := by
  have h1 := init_braintree_succ_eq w method token fuel
  have h2 := init_braintree_succ_eq w method token 0
  have hb := loopIter_trace_bound w ("bearer " ++ token) method token
  rcases hl : loopIter w ("bearer " ++ token) method token with ⟨res0, t', ev⟩
  rw [hl] at h1 h2 hb
  cases res0 with
  | error e =>
    refine ⟨(.error e, t', ev), ?_, ?_, ?_, ?_⟩
    · simpa using h1
    · simpa using h2
    · simpa using hb.1
    · simpa using hb.2
  | ok rr =>
    cases hc : getStrField rr.fields "clientToken" with
    | some ct =>
      refine ⟨(.ok ct, t', ev), ?_, ?_, ?_, ?_⟩
      · simpa [hc] using h1
      · simpa [hc] using h2
      · simpa using hb.1
      · simpa using hb.2
    | none =>
      refine ⟨(.error .jsonError, t', ev), ?_, ?_, ?_, ?_⟩
      · simpa [hc] using h1
      · simpa [hc] using h2
      · simpa using hb.1
      · simpa using hb.2

/-- C8 counterexample: with no mutual exclusion around lines 143-144,
the interleaving in which both threads pass the emptiness check before
either fetch completes issues TWO `get_mps_token` calls — single-flight
does not hold. -/
theorem c8_counterexample_two_fetches :
    (Concurrent.run "A" "B" Concurrent.bothFetchSchedule Concurrent.initSys).fetchCount
      = 2 := rfl

/-- C8 amended: the source has no lock or single-flight coordination:
there exists an interleaving of two concurrent calls from an empty cache
in which both issue a TokenProvider fetch; each thread fetches at most
once, so every interleaving issues at most two fetches. -/
theorem c8_amended_no_single_flight (tokA tokB : String) :
    (∃ sched : List Bool,
        (Concurrent.run tokA tokB sched Concurrent.initSys).fetchCount = 2)
    ∧ ∀ sched : List Bool,
        (Concurrent.run tokA tokB sched Concurrent.initSys).fetchCount ≤ 2 := by
  constructor
  · exact ⟨Concurrent.bothFetchSchedule, rfl⟩
  · intro sched
    have h := Concurrent.run_budget_le tokA tokB sched Concurrent.initSys
    have h0 : Concurrent.budget Concurrent.initSys = 2 := rfl
    have h1 : (Concurrent.run tokA tokB sched Concurrent.initSys).fetchCount ≤
        Concurrent.budget (Concurrent.run tokA tokB sched Concurrent.initSys) := by
      unfold Concurrent.budget
      omega
    omega

/-- C9: in the `sale` and `reserve` endpoints, a body with both or neither
of `payment_method_token` / `payment_method_nonce` is rejected with
`HTTPException(400)` and no gateway call in the trace; with exactly one of
the two present, exactly one `gw.transaction.sale` call is attempted. -/
theorem c9_exactly_one_payment_method
    (gw : Main.SalePayload → Main.GatewayResult)
    (bodyS : Main.SaleRequest) (bodyR : Main.TransactionReserveRequest) :
    (bodyS.payment_method_token.isNone = bodyS.payment_method_nonce.isNone →
      Main.sale gw bodyS =
        (.error (.httpException 400
          "Provide exactly one of payment_method_token or payment_method_nonce"),
         []))
    ∧ (bodyS.payment_method_token.isNone ≠ bodyS.payment_method_nonce.isNone →
      (Main.sale gw bodyS).2 = [Main.salePayload bodyS])
    ∧ (bodyR.payment_method_token.isNone = bodyR.payment_method_nonce.isNone →
      Main.reserve gw bodyR =
        (.error (.httpException 400
          "Provide exactly one of payment_method_token or payment_method_nonce"),
         []))
    ∧ (bodyR.payment_method_token.isNone ≠ bodyR.payment_method_nonce.isNone →
      (Main.reserve gw bodyR).2 = [Main.reservePayload bodyR]) := by
  refine ⟨?_, ?_, ?_, ?_⟩
  · intro h
    unfold Main.sale Main._ensure_single_payment_method
    simp [h]
  · intro h
    unfold Main.sale Main._ensure_single_payment_method
    rw [if_neg (by simpa using h)]
    rcases hgw : gw (Main.salePayload bodyS) with ⟨suc, msg, tx⟩
    cases suc <;> rfl
  · intro h
    unfold Main.reserve Main._ensure_single_payment_method
    simp [h]
  · intro h
    unfold Main.reserve Main._ensure_single_payment_method
    rw [if_neg (by simpa using h)]
    rcases hgw : gw (Main.reservePayload bodyR) with ⟨suc, msg, tx⟩
    cases suc <;> rfl

/-- A gateway stub whose every sale succeeds with a blank transaction. -/
def gwStub : Main.SalePayload → Main.GatewayResult :=
  fun _ => ⟨true, "", ⟨none, none, none, none, none, none, none, none, none, none⟩⟩

theorem c9_witness :
    Main.sale gwStub ⟨"10.00", none, none, true, none⟩ =
      (.error (.httpException 400
        "Provide exactly one of payment_method_token or payment_method_nonce"),
       []) ∧
    (Main.sale gwStub ⟨"10.00", some "t", none, true, none⟩).2 =
      [Main.salePayload ⟨"10.00", some "t", none, true, none⟩] ∧
    Main.reserve gwStub ⟨"10.00", some "t", some "n", none⟩ =
      (.error (.httpException 400
        "Provide exactly one of payment_method_token or payment_method_nonce"),
       []) ∧
    (Main.reserve gwStub ⟨"10.00", none, some "n", none⟩).2 =
      [Main.reservePayload ⟨"10.00", none, some "n", none⟩] :=
  ⟨(c9_exactly_one_payment_method gwStub ⟨"10.00", none, none, true, none⟩
      ⟨"", none, none, none⟩).1 rfl,
   (c9_exactly_one_payment_method gwStub ⟨"10.00", some "t", none, true, none⟩
      ⟨"", none, none, none⟩).2.1 (by decide),
   (c9_exactly_one_payment_method gwStub ⟨"", none, none, true, none⟩
      ⟨"10.00", some "t", some "n", none⟩).2.2.1 rfl,
   (c9_exactly_one_payment_method gwStub ⟨"", none, none, true, none⟩
      ⟨"10.00", none, some "n", none⟩).2.2.2 (by decide)⟩

/-- C10: `get_html_file` serves a file only when the resolved candidate
path lies strictly inside the resolved html directory (a proper
segment-prefix, the meaning of `html_root in candidate.parents`) and its
final component has suffix `.html`; any other filename is answered with
400 and no read; a conforming but missing file is answered with 404; and
every path ever passed to `read_text` lies strictly inside the html
directory with an `.html` suffix. -/
theorem c10_html_serving_confined
    (cwd : List String) (fs : List String → Option String) (filename : String)
    (html_root candidate : List String)
    (hroot : html_root = resolveSegs [] (cwd ++ ["html"]))
    (hcand : candidate =
      (if isAbsolutePath filename then resolveSegs [] (splitOnSlash filename)
       else resolveSegs html_root (splitOnSlash filename))) :
    ((¬ (html_root.length < candidate.length ∧
          candidate.take html_root.length = html_root)
        ∨ pySuffix (candidate.getLastD "") ≠ ".html") →
      get_html_file cwd fs filename = (.httpError 400 "Invalid path segment", []))
    ∧ ((html_root.length < candidate.length ∧
          candidate.take html_root.length = html_root) →
      pySuffix (candidate.getLastD "") = ".html" →
      (fs candidate = none →
        get_html_file cwd fs filename = (.httpError 404 "File not found", [candidate]))
      ∧ (∀ c, fs candidate = some c →
        get_html_file cwd fs filename = (.ok c, [candidate])))
    ∧ (∀ p ∈ (get_html_file cwd fs filename).2,
        (html_root.length < p.length ∧ p.take html_root.length = html_root) ∧
        pySuffix (p.getLastD "") = ".html") := by
  refine ⟨?_, ?_, ?_⟩
  · rintro (hnin | hnsuf)
    · have hmem : html_root ∉ pathParents candidate := by
        rw [pathParents_mem_iff]
        exact hnin
      simp [get_html_file, ← hroot, ← hcand, hmem]
    · rw [List.getLastD_eq_getLast?] at hnsuf
      simp [get_html_file, ← hroot, ← hcand, hnsuf]
  · intro hin hsuf
    have hmem : html_root ∈ pathParents candidate :=
      (pathParents_mem_iff candidate html_root).mpr hin
    rw [List.getLastD_eq_getLast?] at hsuf
    constructor
    · intro hfs
      simp [get_html_file, ← hroot, ← hcand, hmem, hsuf, hfs]
    · intro c hfs
      simp [get_html_file, ← hroot, ← hcand, hmem, hsuf, hfs]
  · intro p hp
    by_cases hin : html_root.length < candidate.length ∧
        candidate.take html_root.length = html_root
    · by_cases hsuf : pySuffix (candidate.getLastD "") = ".html"
      · have hmem : html_root ∈ pathParents candidate :=
          (pathParents_mem_iff candidate html_root).mpr hin
        have hsuf2 := hsuf
        rw [List.getLastD_eq_getLast?] at hsuf2
        cases hfv : fs candidate with
        | none =>
          simp [get_html_file, ← hroot, ← hcand, hmem, hsuf2, hfv] at hp
          subst hp
          exact ⟨hin, hsuf⟩
        | some c =>
          simp [get_html_file, ← hroot, ← hcand, hmem, hsuf2, hfv] at hp
          subst hp
          exact ⟨hin, hsuf⟩
      · have hsuf2 := hsuf
        rw [List.getLastD_eq_getLast?] at hsuf2
        simp [get_html_file, ← hroot, ← hcand, hsuf2] at hp
    · have hmem : html_root ∉ pathParents candidate := by
        rw [pathParents_mem_iff]
        exact hin
      simp [get_html_file, ← hroot, ← hcand, hmem] at hp

/-- Demo filesystem: only `/app/html/x.html` exists, holding `"hi"`. -/
def demoFs : List String → Option String := fun p =>
  if p = ["app", "html", "x.html"] then some "hi" else none

theorem c10_witness :
    get_html_file ["app"] demoFs "../x.html" =
      (.httpError 400 "Invalid path segment", []) ∧
    get_html_file ["app"] demoFs "x.html" = (.ok "hi", [["app", "html", "x.html"]]) ∧
    get_html_file ["app"] demoFs "y.html" =
      (.httpError 404 "File not found", [["app", "html", "y.html"]]) :=
  ⟨(c10_html_serving_confined ["app"] demoFs "../x.html"
      ["app", "html"] ["app", "x.html"] (by decide) (by decide)).1
      (Or.inl (by decide)),
   ((c10_html_serving_confined ["app"] demoFs "x.html"
      ["app", "html"] ["app", "html", "x.html"] (by decide) (by decide)).2.1
      (by decide) (by decide)).2 "hi" rfl,
   ((c10_html_serving_confined ["app"] demoFs "y.html"
      ["app", "html"] ["app", "html", "y.html"] (by decide) (by decide)).2.1
      (by decide) (by decide)).1 rfl⟩

theorem c7_witness :
    ∃ res, init_braintree partnerOkWorld "paypal" "tok2" 1 = some res
      ∧ init_braintree partnerOkWorld "paypal" "tok2" 1 = some res
      ∧ (res.2.2.filter Event.isIdentityPost).length ≤ 1
      ∧ (res.2.2.filter Event.isPartnerPost).length ≤ 1 := by
  rcases c7_terminates_single_iteration partnerOkWorld "paypal" "tok2" 0
    with ⟨res, h1, h2, h3, h4⟩
  exact ⟨res, h1, h1, h3, h4⟩

theorem c8_witness :
    (∃ sched : List Bool,
        (Concurrent.run "A" "B" sched Concurrent.initSys).fetchCount = 2)
    ∧ ∀ sched : List Bool,
        (Concurrent.run "A" "B" sched Concurrent.initSys).fetchCount ≤ 2 :=
  c8_amended_no_single_flight "A" "B"

end BraintreeSandbox
